import Mathlib

/-!
Shallow embedding of the golog leveled-logging package.

The package (files `logrus.go` and two further source files) exposes:
- `Level`, a Go `int`-backed enumeration `DebugLevel .. DisabledLevel`;
- a process-wide `globalState` holding the current threshold level,
  guarded by a mutex `mu`;
- `stdLogger`, a plain-text logger bound to one level that gates every
  call on `isPrint` (its own level compared against the global
  threshold) before writing to its sink;
- six pre-built singleton `stdLogger`s and a factory `NewStdLogger`;
- `Logrus`, a structured-logger adapter with the same gate (`isEnabled`).

Stateful Go code is embedded by explicit state passing: each logging
operation takes the global state and returns the list of observable
events (sink writes and process exits) it performs, in order.  The
synchronization behaviour of `getState` / `setGlobalStateLevel` is
embedded separately as traces of lock/unlock/read/write events.
-/

namespace Golog

/-- Go `type Level int`: the severity level of the package, backed by a
machine integer (overflow is irrelevant here, so `Int`). -/
abbrev Level := Int

/-- Go `DebugLevel Level = iota` (= 0). -/
def DebugLevel : Level := 0

/-- Go `TraceLevel` (= 1). -/
def TraceLevel : Level := 1

/-- Go `InfoLevel` (= 2). -/
def InfoLevel : Level := 2

/-- Go `WarningLevel` (= 3). -/
def WarningLevel : Level := 3

/-- Go `ErrorLevel` (= 4). -/
def ErrorLevel : Level := 4

/-- Go `DisabledLevel` (= 5). -/
def DisabledLevel : Level := 5

/-- Go `func (l Level) String() string`: the switch in `logrus.go`
(cases in source order; the fall-through return is the empty string). -/
def Level.String (l : Level) : String :=
  if l = DebugLevel then "DEBUG: "
  else if l = InfoLevel then "INFO: "
  else if l = ErrorLevel then "ERROR: "
  else if l = DisabledLevel then "DISABLED: "
  else if l = TraceLevel then "TRACE: "
  else if l = WarningLevel then "WARNING: "
  else ""

/-- Go `type globalState struct { currentLevel Level }`. -/
structure globalState where
  currentLevel : Level
deriving DecidableEq

/-- Go `func setGlobalStateLevel(lvl Level)`: replaces the current level
(the mutex it takes is modelled separately by `setGlobalStateLevelTrace`). -/
def setGlobalStateLevel (lvl : Level) (s : globalState) : globalState :=
  { s with currentLevel := lvl }

/-- Go `func SetLevel(lvl Level)`: delegates to `setGlobalStateLevel`. -/
def SetLevel (lvl : Level) (s : globalState) : globalState :=
  setGlobalStateLevel lvl s

/-- The sink a logger writes to.  `os.Stdout` and `ioutil.Discard` are
the two sinks of the six singleton loggers. -/
inductive Writer where
  | stdout
  | discard
deriving DecidableEq

/-- An observable action of a logging call: a write of a rendered
message to a sink (Go `log.Logger.Output` / `logrus.Logger.Log`), or a
process termination (Go `os.Exit`). -/
inductive Event where
  | write (w : Writer) (msg : String)
  | exit (code : Nat)
deriving DecidableEq

/-- True when the event is a process termination. -/
def Event.isExit : Event → Bool
  | Event.exit _ => true
  | _ => false

/-- Go `fmt.Sprint(v...)` restricted to string operands: Sprint inserts
a space only between two operands neither of which is a string, so for
string operands it is plain concatenation. -/
def fmtSprint (v : List String) : String :=
  String.join v

/-- Go `fmt.Sprintln(v...)`: operands space-separated, newline
terminated. -/
def fmtSprintln (v : List String) : String :=
  String.intercalate " " v ++ "\n"

/-- Core of `fmtSprintf`: substitutes each `%s` verb with the next
operand and `%%` with a literal percent (the only verbs the claims
exercise; other verbs and arity mismatches are out of scope). -/
def sprintfAux : List Char → List String → List Char
  | [], _ => []
  | '%' :: 's' :: rest, a :: args => a.data ++ sprintfAux rest args
  | '%' :: '%' :: rest, args => '%' :: sprintfAux rest args
  | c :: rest, args => c :: sprintfAux rest args

/-- Go `fmt.Sprintf(format, v...)` restricted to string operands and
`%s` verbs. -/
def fmtSprintf (format : String) (v : List String) : String :=
  String.mk (sprintfAux format.data v)

/-- Go `type stdLogger struct { level Level; l *log.Logger }`: the
embedded `log.Logger` is represented by its sink. -/
structure stdLogger where
  level : Level
  out : Writer
deriving DecidableEq

/-- Go `DebugLogger`: level `DebugLevel`, sink `os.Stdout`. -/
def DebugLogger : stdLogger :=
  { level := DebugLevel, out := Writer.stdout }

/-- Go `TraceLogger`: level `TraceLevel`, sink `os.Stdout`. -/
def TraceLogger : stdLogger :=
  { level := TraceLevel, out := Writer.stdout }

/-- Go `InfoLogger`: level `InfoLevel`, sink `os.Stdout`. -/
def InfoLogger : stdLogger :=
  { level := InfoLevel, out := Writer.stdout }

/-- Go `WarningLogger`: level `WarningLevel`, sink `os.Stdout`. -/
def WarningLogger : stdLogger :=
  { level := WarningLevel, out := Writer.stdout }

/-- Go `ErrorLogger`: level `ErrorLevel`, sink `os.Stdout`. -/
def ErrorLogger : stdLogger :=
  { level := ErrorLevel, out := Writer.stdout }

/-- Go `DisabledLogger`: level `DisabledLevel`, sink `ioutil.Discard`. -/
def DisabledLogger : stdLogger :=
  { level := DisabledLevel, out := Writer.discard }

/-- Go `func (l *stdLogger) isPrint() bool`: fetches the global state
and compares the logger level against the current threshold. -/
def stdLogger.isPrint (l : stdLogger) (g : globalState) : Bool :=
  if l.level < g.currentLevel then false else true

/-- Go `func (l *stdLogger) Output(calldepth int, s string)`: forwards
the rendered string to the embedded logger, which writes it to the
sink (the call depth only affects the reported file:line, not modelled). -/
def stdLogger.Output (l : stdLogger) (s : String) : List Event :=
  [Event.write l.out s]

/-- Go `func (l *stdLogger) Print(v ...interface{})`. -/
def stdLogger.Print (l : stdLogger) (g : globalState) (v : List String) : List Event :=
  if !(l.isPrint g) then []
  else l.Output (fmtSprint v)

/-- Go `func (l *stdLogger) Printf(format string, v ...interface{})`. -/
def stdLogger.Printf (l : stdLogger) (g : globalState) (format : String) (v : List String) : List Event :=
  if !(l.isPrint g) then []
  else l.Output (fmtSprintf format v)

/-- Go `func (l *stdLogger) Println(v ...interface{})`. -/
def stdLogger.Println (l : stdLogger) (g : globalState) (v : List String) : List Event :=
  if !(l.isPrint g) then []
  else l.Output (fmtSprintln v)

/-- Go `func (l *stdLogger) Fatal(v ...interface{})`: gated output
followed by `os.Exit(1)`. -/
def stdLogger.Fatal (l : stdLogger) (g : globalState) (v : List String) : List Event :=
  if !(l.isPrint g) then []
  else l.Output (fmtSprint v) ++ [Event.exit 1]

/-- Go `func (l *stdLogger) Fatalf(format string, v ...interface{})`:
gated formatted output followed by `os.Exit(1)`. -/
def stdLogger.Fatalf (l : stdLogger) (g : globalState) (format : String) (v : List String) : List Event :=
  if !(l.isPrint g) then []
  else l.Output (fmtSprintf format v) ++ [Event.exit 1]

/-- Go `func loggerFactory(level Level) Logger`: `var l Logger` starts
as nil (`none` here) and the switch has no default case. -/
def loggerFactory (level : Level) : Option stdLogger :=
  if level = DebugLevel then some DebugLogger
  else if level = TraceLevel then some TraceLogger
  else if level = InfoLevel then some InfoLogger
  else if level = WarningLevel then some WarningLogger
  else if level = ErrorLevel then some ErrorLogger
  else if level = DisabledLevel then some DisabledLogger
  else none

/-- Go `func NewStdLogger(level Level) Logger`: delegates to
`loggerFactory`. -/
def NewStdLogger (level : Level) : Option stdLogger :=
  loggerFactory level

/-- The six pre-built singleton loggers, in level order. -/
def singletonLoggers : List stdLogger :=
  [DebugLogger, TraceLogger, InfoLogger, WarningLogger, ErrorLogger, DisabledLogger]

/-! ### The structured-logger adapter (`Logrus`)

Embedded from the live adapter file (the one with `NewLogrusLogger`);
the repository also contains a near-identical inert duplicate whose
methods are all empty.  The external `logrus` library: its levels are
`Panic=0 < Fatal=1 < Error=2 < Warn=3 < Info=4 < Debug=5 < Trace=6`,
and `Logger.Log(level, args...)` emits iff `level <= logger.level`. -/

/-- External `logrus.Level` (a `uint32`; only the ordering matters). -/
abbrev LogrusLevel := Nat

/-- External `logrus.ErrorLevel` (= 2). -/
def logrusErrorLevel : LogrusLevel := 2

/-- External `logrus.WarnLevel` (= 3). -/
def logrusWarnLevel : LogrusLevel := 3

/-- External `logrus.InfoLevel` (= 4). -/
def logrusInfoLevel : LogrusLevel := 4

/-- External `logrus.DebugLevel` (= 5). -/
def logrusDebugLevel : LogrusLevel := 5

/-- External `logrus.TraceLevel` (= 6). -/
def logrusTraceLevel : LogrusLevel := 6

/-- Go `type Logrus struct { logger *logrus.Logger; level Level;
logrusLevel logrus.Level }`: the embedded `logrus.Logger` is
represented by its configured admission level (set to
`logrus.TraceLevel` by the constructor). -/
structure Logrus where
  loggerLevel : LogrusLevel
  level : Level
  logrusLevel : LogrusLevel
deriving DecidableEq

/-- External `logrus.Logger.Log(level, args...)` on a logger whose
configured level is `loggerLevel`: emits the rendered message to the
logger output iff the entry level is admitted (`level <= loggerLevel`). -/
def logrusLog (loggerLevel : LogrusLevel) (level : LogrusLevel) (msg : String) : List Event :=
  if level ≤ loggerLevel then [Event.write Writer.stdout msg] else []

/-- Go `func NewLogrusLogger(level Level) *Logrus`: builds a fresh
`logrus` logger set to `logrus.TraceLevel`, maps the package level to a
`logrus` severity by the switch (note `DisabledLevel` maps to
`logrus.InfoLevel`; with no matching case `llevel` keeps its zero
value, `logrus.PanicLevel` = 0). -/
def NewLogrusLogger (level : Level) : Logrus :=
  let llevel : LogrusLevel :=
    if level = DebugLevel then logrusDebugLevel
    else if level = TraceLevel then logrusTraceLevel
    else if level = InfoLevel then logrusInfoLevel
    else if level = WarningLevel then logrusWarnLevel
    else if level = ErrorLevel then logrusErrorLevel
    else if level = DisabledLevel then logrusInfoLevel
    else 0
  { loggerLevel := logrusTraceLevel, level := level, logrusLevel := llevel }

/-- Go `func (l *Logrus) isEnabled() bool`: same gate as
`stdLogger.isPrint`. -/
def Logrus.isEnabled (l : Logrus) (g : globalState) : Bool :=
  if l.level < g.currentLevel then false else true

/-- Go `func (l *Logrus) Print(v ...interface{})`: if enabled, logs at
the mapped severity. -/
def Logrus.Print (l : Logrus) (g : globalState) (v : List String) : List Event :=
  if l.isEnabled g then logrusLog l.loggerLevel l.logrusLevel (fmtSprint v)
  else []

/-- Go `func (l *Logrus) Println(v ...interface{})`: same body as
`Print` (the source also calls `Log` with the plain arguments). -/
def Logrus.Println (l : Logrus) (g : globalState) (v : List String) : List Event :=
  if l.isEnabled g then logrusLog l.loggerLevel l.logrusLevel (fmtSprint v)
  else []

/-- Go `func (l *Logrus) Printf(format string, v ...interface{}) {}`:
the body is empty in the source, so the call performs nothing at all. -/
def Logrus.Printf (_ : Logrus) (_ : globalState) (_ : String) (_ : List String) : List Event :=
  []

/-- Go `func (l *Logrus) Fatal(v ...interface{})`: if enabled, logs and
then calls `os.Exit(1)`. -/
def Logrus.Fatal (l : Logrus) (g : globalState) (v : List String) : List Event :=
  if l.isEnabled g then
    logrusLog l.loggerLevel l.logrusLevel (fmtSprint v) ++ [Event.exit 1]
  else []

/-- Go `func (l *Logrus) Fatalf(format string, v ...interface{})`: if
enabled, logs the formatted message; the source body contains no
`os.Exit` call. -/
def Logrus.Fatalf (l : Logrus) (g : globalState) (format : String) (v : List String) : List Event :=
  if l.isEnabled g then logrusLog l.loggerLevel l.logrusLevel (fmtSprintf format v)
  else []

/-! ### Synchronization traces

`getState` is Go
`func getState() *globalState { mu.Lock(); defer mu.Unlock(); return state }`:
the deferred `mu.Unlock()` runs when `getState` returns, i.e. before
the caller receives the `*globalState` pointer.  The callers
(`stdLogger.isPrint`, `Logrus.isEnabled`) then dereference
`gstate.currentLevel` after the lock has been released.  We embed the
sequence of lock operations and shared-cell accesses each function
performs. -/

/-- A synchronization-relevant action: acquiring or releasing the
package mutex `mu`, or accessing the shared `state.currentLevel` cell. -/
inductive SyncEvent where
  | lock
  | unlock
  | readLevel
  | writeLevel (lvl : Level)
deriving DecidableEq

/-- Trace of Go `getState()`: acquires `mu`, releases it via the
deferred unlock as it returns; the shared cell itself is not read
inside (only the pointer `state` is). -/
def getStateTrace : List SyncEvent :=
  [SyncEvent.lock, SyncEvent.unlock]

/-- Trace of Go `stdLogger.isPrint` (identically `Logrus.isEnabled`):
calls `getState()`, then reads `gstate.currentLevel` after the call has
returned. -/
def isPrintTrace : List SyncEvent :=
  getStateTrace ++ [SyncEvent.readLevel]

/-- Trace of Go `setGlobalStateLevel(lvl)`: acquires `mu`, writes
`state.currentLevel`, releases via the deferred unlock on return. -/
def setGlobalStateLevelTrace (lvl : Level) : List SyncEvent :=
  [SyncEvent.lock, SyncEvent.writeLevel lvl, SyncEvent.unlock]

/-- Checks that, starting from lock depth `d`, every access of the
shared `currentLevel` cell in the trace happens while the mutex is
held (depth positive). -/
def accessesLocked : Nat → List SyncEvent → Bool
  | _, [] => true
  | d, SyncEvent.lock :: rest => accessesLocked (d + 1) rest
  | d, SyncEvent.unlock :: rest => accessesLocked (d - 1) rest
  | d, SyncEvent.readLevel :: rest => decide (0 < d) && accessesLocked d rest
  | d, SyncEvent.writeLevel _ :: rest => decide (0 < d) && accessesLocked d rest

/-- Filters the messages a list of events makes visible: writes to a
real sink count, writes to the discard sink and exits do not. -/
def visibleOutput (es : List Event) : List String :=
  es.filterMap fun e =>
    match e with
    | Event.write Writer.discard _ => none
    | Event.write _ s => some s
    | Event.exit _ => none



/-! ## Helper lemmas -/

/-- The standard-logger gate is exactly the comparison of the global
threshold against the logger level. -/
theorem isPrint_eq (l : stdLogger) (g : globalState) :
    l.isPrint g = decide (g.currentLevel ≤ l.level) := by
  unfold stdLogger.isPrint
  rcases lt_or_ge l.level g.currentLevel with h | h
  · simp [h, not_le.mpr h]
  · simp [not_lt.mpr h, h]

/-- The structured-adapter gate is the same comparison. -/
theorem isEnabled_eq (l : Logrus) (g : globalState) :
    l.isEnabled g = decide (g.currentLevel ≤ l.level) := by
  unfold Logrus.isEnabled
  rcases lt_or_ge l.level g.currentLevel with h | h
  · simp [h, not_le.mpr h]
  · simp [not_lt.mpr h, h]

/-- Closed form of `stdLogger.Print`: the single sink write when the
gate passes, nothing otherwise. -/
theorem Print_eq (l : stdLogger) (g : globalState) (v : List String) :
    l.Print g v = (if g.currentLevel ≤ l.level then [Event.write l.out (fmtSprint v)] else []) := by
  unfold stdLogger.Print stdLogger.Output
  rw [isPrint_eq]
  rcases le_or_lt g.currentLevel l.level with h | h <;> simp [h, not_le.mpr]

/-- Closed form of `stdLogger.Printf`. -/
theorem Printf_eq (l : stdLogger) (g : globalState) (f : String) (v : List String) :
    l.Printf g f v = (if g.currentLevel ≤ l.level then [Event.write l.out (fmtSprintf f v)] else []) := by
  unfold stdLogger.Printf stdLogger.Output
  rw [isPrint_eq]
  rcases le_or_lt g.currentLevel l.level with h | h <;> simp [h, not_le.mpr]

/-- Closed form of `stdLogger.Println`. -/
theorem Println_eq (l : stdLogger) (g : globalState) (v : List String) :
    l.Println g v = (if g.currentLevel ≤ l.level then [Event.write l.out (fmtSprintln v)] else []) := by
  unfold stdLogger.Println stdLogger.Output
  rw [isPrint_eq]
  rcases le_or_lt g.currentLevel l.level with h | h <;> simp [h, not_le.mpr]

/-- Closed form of `stdLogger.Fatal`. -/
theorem Fatal_eq (l : stdLogger) (g : globalState) (v : List String) :
    l.Fatal g v
      = (if g.currentLevel ≤ l.level
          then [Event.write l.out (fmtSprint v), Event.exit 1] else []) := by
  unfold stdLogger.Fatal stdLogger.Output
  rw [isPrint_eq]
  rcases le_or_lt g.currentLevel l.level with h | h <;> simp [h, not_le.mpr]

/-- Closed form of `stdLogger.Fatalf`. -/
theorem Fatalf_eq (l : stdLogger) (g : globalState) (f : String) (v : List String) :
    l.Fatalf g f v
      = (if g.currentLevel ≤ l.level
          then [Event.write l.out (fmtSprintf f v), Event.exit 1] else []) := by
  unfold stdLogger.Fatalf stdLogger.Output
  rw [isPrint_eq]
  rcases le_or_lt g.currentLevel l.level with h | h <;> simp [h, not_le.mpr]

/-! ## Claim theorems -/

/-- C1.  Monotonic gating: for every logger level and every global
threshold, `Print`, `Printf` and `Println` on a standard logger emit
their rendered message to the logger sink iff the logger level is at
least the threshold, and otherwise perform no event at all; the
structured adapter's gate `isEnabled` is the same comparison. -/
theorem c1_monotonic_gating (l : stdLogger) (lg : Logrus) (g : globalState)
    (v : List String) (f : String) :
    l.Print g v = (if g.currentLevel ≤ l.level then [Event.write l.out (fmtSprint v)] else [])
  ∧ l.Printf g f v = (if g.currentLevel ≤ l.level then [Event.write l.out (fmtSprintf f v)] else [])
  ∧ l.Println g v = (if g.currentLevel ≤ l.level then [Event.write l.out (fmtSprintln v)] else [])
  ∧ l.isPrint g = decide (g.currentLevel ≤ l.level)
  ∧ lg.isEnabled g = decide (g.currentLevel ≤ lg.level) :=
  ⟨Print_eq l g v, Printf_eq l g f v, Println_eq l g v, isPrint_eq l g, isEnabled_eq lg g⟩

/-- C2.  Fatal respects gating: when the logger level is strictly below
the global threshold, `Fatal` and `Fatalf` on the standard logger and
on the structured adapter perform no event: no output and, in
particular, no process exit. -/
theorem c2_fatal_gated (l : stdLogger) (lg : Logrus) (g : globalState)
    (v : List String) (f : String)
    (hl : l.level < g.currentLevel) (hlg : lg.level < g.currentLevel) :
    l.Fatal g v = [] ∧ l.Fatalf g f v = []
  ∧ lg.Fatal g v = [] ∧ lg.Fatalf g f v = [] := by
  refine ⟨?_, ?_, ?_, ?_⟩
  · rw [Fatal_eq, if_neg (not_le.mpr hl)]
  · rw [Fatalf_eq, if_neg (not_le.mpr hl)]
  · unfold Logrus.Fatal
    rw [isEnabled_eq]
    simp [not_le.mpr hlg]
  · unfold Logrus.Fatalf
    rw [isEnabled_eq]
    simp [not_le.mpr hlg]

/-- Witness for C2 at a concrete disabled pair: a Debug-level standard
logger and a Debug-level structured logger under an Info threshold. -/
theorem c2_fatal_gated_witness :
    stdLogger.Fatal DebugLogger { currentLevel := InfoLevel } ["x"] = []
  ∧ stdLogger.Fatalf DebugLogger { currentLevel := InfoLevel } "f %s" ["x"] = []
  ∧ Logrus.Fatal (NewLogrusLogger DebugLevel) { currentLevel := InfoLevel } ["x"] = []
  ∧ Logrus.Fatalf (NewLogrusLogger DebugLevel) { currentLevel := InfoLevel } "f %s" ["x"] = [] := by
  have h := c2_fatal_gated DebugLogger (NewLogrusLogger DebugLevel)
    { currentLevel := InfoLevel } ["x"] "f %s" (by decide) (by decide)
  exact ⟨h.1, h.2.1, h.2.2.1, h.2.2.2⟩

/-- C3 (divergence).  The structured adapter's `Fatalf`, called with
the gate enabled (logger level `ErrorLevel`, threshold `InfoLevel`),
emits the rendered message but performs no process exit: its body has
no `os.Exit(1)` call, unlike `Fatal` directly above it and unlike
`stdLogger.Fatalf`, so the claim that every `Fatalf` terminates with
exit status 1 after emission fails on this implementation. -/
theorem c3_logrus_fatalf_does_not_exit :
    Logrus.isEnabled (NewLogrusLogger ErrorLevel) { currentLevel := InfoLevel } = true
  ∧ Logrus.Fatalf (NewLogrusLogger ErrorLevel) { currentLevel := InfoLevel } "boom" []
      = [Event.write Writer.stdout "boom"]
  ∧ (Logrus.Fatalf (NewLogrusLogger ErrorLevel) { currentLevel := InfoLevel } "boom" []).all
      (fun e => !e.isExit) = true
  ∧ stdLogger.Fatalf ErrorLogger { currentLevel := InfoLevel } "boom" []
      = [Event.write Writer.stdout "boom", Event.exit 1] :=
  ⟨rfl, rfl, rfl, rfl⟩

/-- C4.  Threshold update and propagation: `SetLevel x` installs `x`
as the global threshold for any integer `x`, with no validation, and
every gate check made against the updated state (by any standard
logger, in particular each of the six singletons, and by the
structured adapter) compares against `x`, whatever the previous state
was. -/
theorem c4_setlevel_propagation (x : Level) (s : globalState) (l : stdLogger) (lg : Logrus) :
    (SetLevel x s).currentLevel = x
  ∧ l.isPrint (SetLevel x s) = decide (x ≤ l.level)
  ∧ lg.isEnabled (SetLevel x s) = decide (x ≤ lg.level)
  ∧ (singletonLoggers.map fun sl => sl.isPrint (SetLevel x s))
      = (singletonLoggers.map fun sl => decide (x ≤ sl.level)) := by
  have hx : (SetLevel x s).currentLevel = x := rfl
  refine ⟨rfl, ?_, ?_, ?_⟩
  · rw [isPrint_eq, hx]
  · rw [isEnabled_eq, hx]
  · simp only [isPrint_eq, hx]

/-- C5 (divergence).  The structured adapter's `Printf`, called with
the gate enabled (logger level `InfoLevel`, threshold `InfoLevel`) and
a format whose standard rendering is nonempty, performs no event at
all: its body is empty in the source, so the claim that every `Printf`
renders and forwards fails on this implementation (the standard
logger's `Printf` does render and forward). -/
theorem c5_logrus_printf_noop :
    Logrus.isEnabled (NewLogrusLogger InfoLevel) { currentLevel := InfoLevel } = true
  ∧ fmtSprintf "Hello %s!" ["World"] = "Hello World!"
  ∧ Logrus.Printf (NewLogrusLogger InfoLevel) { currentLevel := InfoLevel } "Hello %s!" ["World"]
      = []
  ∧ stdLogger.Printf InfoLogger { currentLevel := InfoLevel } "Hello %s!" ["World"]
      = [Event.write Writer.stdout "Hello World!"] :=
  ⟨rfl, rfl, rfl, rfl⟩

/-- C6.  Plain rendering fidelity: on an enabled standard logger,
`Print` forwards the plain concatenation of its arguments (no
separator) and `Println` forwards them space-separated with a trailing
newline. -/
theorem c6_plain_rendering (l : stdLogger) (g : globalState) (v : List String)
    (h : g.currentLevel ≤ l.level) :
    l.Print g v = [Event.write l.out (String.join v)]
  ∧ l.Println g v = [Event.write l.out (String.intercalate " " v ++ "\n")] := by
  constructor
  · rw [Print_eq, if_pos h]
    rfl
  · rw [Println_eq, if_pos h]
    rfl

/-- Witness for C6: the Info singleton at an Info threshold;
`Print ["a", "b"]` forwards `"ab"` and `Println ["a", "b"]` forwards
`"a b\n"`. -/
theorem c6_plain_rendering_witness :
    stdLogger.Print InfoLogger { currentLevel := InfoLevel } ["a", "b"]
      = [Event.write Writer.stdout "ab"]
  ∧ stdLogger.Println InfoLogger { currentLevel := InfoLevel } ["a", "b"]
      = [Event.write Writer.stdout "a b\n"] := by
  have h := c6_plain_rendering InfoLogger { currentLevel := InfoLevel } ["a", "b"] (by decide)
  exact ⟨h.1.trans (by rfl), h.2.trans (by rfl)⟩

/-- C7.  Level display: each of the six defined levels renders exactly
its documented prefix, and every other integer level renders as the
empty string. -/
theorem c7_level_string (x : Level)
    (hx : x ≠ DebugLevel ∧ x ≠ TraceLevel ∧ x ≠ InfoLevel
        ∧ x ≠ WarningLevel ∧ x ≠ ErrorLevel ∧ x ≠ DisabledLevel) :
    Level.String DebugLevel = "DEBUG: "
  ∧ Level.String TraceLevel = "TRACE: "
  ∧ Level.String InfoLevel = "INFO: "
  ∧ Level.String WarningLevel = "WARNING: "
  ∧ Level.String ErrorLevel = "ERROR: "
  ∧ Level.String DisabledLevel = "DISABLED: "
  ∧ Level.String x = "" := by
  refine ⟨rfl, rfl, rfl, rfl, rfl, rfl, ?_⟩
  unfold Level.String
  simp [hx.1, hx.2.1, hx.2.2.1, hx.2.2.2.1, hx.2.2.2.2.1, hx.2.2.2.2.2]

/-- Witness for C7 at the out-of-range level 42. -/
theorem c7_level_string_witness :
    Level.String DebugLevel = "DEBUG: "
  ∧ Level.String TraceLevel = "TRACE: "
  ∧ Level.String InfoLevel = "INFO: "
  ∧ Level.String WarningLevel = "WARNING: "
  ∧ Level.String ErrorLevel = "ERROR: "
  ∧ Level.String DisabledLevel = "DISABLED: "
  ∧ Level.String 42 = "" :=
  c7_level_string 42 (by refine ⟨?_, ?_, ?_, ?_, ?_, ?_⟩ <;> decide)

/-- C8.  Factory boundary: `NewStdLogger` returns the pre-built
singleton for each of the six defined levels and `none` (Go `nil`) for
every other integer level, raising no error. -/
theorem c8_factory_boundary (x : Level)
    (hx : x ≠ DebugLevel ∧ x ≠ TraceLevel ∧ x ≠ InfoLevel
        ∧ x ≠ WarningLevel ∧ x ≠ ErrorLevel ∧ x ≠ DisabledLevel) :
    NewStdLogger DebugLevel = some DebugLogger
  ∧ NewStdLogger TraceLevel = some TraceLogger
  ∧ NewStdLogger InfoLevel = some InfoLogger
  ∧ NewStdLogger WarningLevel = some WarningLogger
  ∧ NewStdLogger ErrorLevel = some ErrorLogger
  ∧ NewStdLogger DisabledLevel = some DisabledLogger
  ∧ NewStdLogger x = none := by
  refine ⟨rfl, rfl, rfl, rfl, rfl, rfl, ?_⟩
  unfold NewStdLogger loggerFactory
  simp [hx.1, hx.2.1, hx.2.2.1, hx.2.2.2.1, hx.2.2.2.2.1, hx.2.2.2.2.2]

/-- Witness for C8 at the out-of-range level -1. -/
theorem c8_factory_boundary_witness :
    NewStdLogger DebugLevel = some DebugLogger
  ∧ NewStdLogger TraceLevel = some TraceLogger
  ∧ NewStdLogger InfoLevel = some InfoLogger
  ∧ NewStdLogger WarningLevel = some WarningLogger
  ∧ NewStdLogger ErrorLevel = some ErrorLogger
  ∧ NewStdLogger DisabledLevel = some DisabledLogger
  ∧ NewStdLogger (-1) = none :=
  c8_factory_boundary (-1) (by refine ⟨?_, ?_, ?_, ?_, ?_, ?_⟩ <;> decide)

/-- C9 (divergence).  In the trace of a gate check, the read of the
shared `currentLevel` cell happens outside the mutex critical section:
`getState` releases `mu` (deferred unlock) before returning the
`state` pointer, and the caller dereferences `currentLevel`
afterwards, so `accessesLocked` rejects the gate-check trace while it
accepts the `setGlobalStateLevel` trace, whose write is inside the
critical section. -/
theorem c9_threshold_read_escapes_lock (lvl : Level) :
    isPrintTrace = [SyncEvent.lock, SyncEvent.unlock, SyncEvent.readLevel]
  ∧ accessesLocked 0 isPrintTrace = false
  ∧ accessesLocked 0 (setGlobalStateLevelTrace lvl) = true :=
  ⟨rfl, rfl, rfl⟩

/-- C10.  Disabled-level gating: any standard logger whose own level is
`DisabledLevel` passes the gate against every threshold up to
`DisabledLevel` (it is the maximum ordinal); the `DisabledLogger`
singleton stays silent only because its sink is the discard writer;
and the structured-logger constructor maps `DisabledLevel` to the
enabled severity `logrus.InfoLevel`, so a `DisabledLevel` structured
logger emits whenever called under such a threshold. -/
theorem c10_disabled_level_gate (l : stdLogger) (G : Level) (v : List String)
    (hl : l.level = DisabledLevel) (hG : G ≤ DisabledLevel) :
    l.isPrint { currentLevel := G } = true
  ∧ DisabledLogger.out = Writer.discard
  ∧ visibleOutput (DisabledLogger.Print { currentLevel := G } v) = []
  ∧ (NewLogrusLogger DisabledLevel).logrusLevel = logrusInfoLevel
  ∧ Logrus.Print (NewLogrusLogger DisabledLevel) { currentLevel := G } v
      = [Event.write Writer.stdout (fmtSprint v)] := by
  have hgate : ∀ m : stdLogger, m.level = DisabledLevel →
      m.isPrint { currentLevel := G } = true := by
    intro m hm
    rw [isPrint_eq]
    simp only [hm]
    exact decide_eq_true (by exact hG)
  refine ⟨hgate l hl, rfl, ?_, rfl, ?_⟩
  · rw [Print_eq, if_pos (by exact hG)]
    rfl
  · unfold Logrus.Print
    rw [isEnabled_eq]
    have : decide (({ currentLevel := G } : globalState).currentLevel
        ≤ (NewLogrusLogger DisabledLevel).level) = true := decide_eq_true (by exact hG)
    rw [this]
    rfl

/-- Witness for C10: the `DisabledLogger` singleton and an Info
threshold. -/
theorem c10_disabled_level_gate_witness :
    stdLogger.isPrint DisabledLogger { currentLevel := InfoLevel } = true
  ∧ DisabledLogger.out = Writer.discard
  ∧ visibleOutput (stdLogger.Print DisabledLogger { currentLevel := InfoLevel } ["x"]) = []
  ∧ (NewLogrusLogger DisabledLevel).logrusLevel = logrusInfoLevel
  ∧ Logrus.Print (NewLogrusLogger DisabledLevel) { currentLevel := InfoLevel } ["x"]
      = [Event.write Writer.stdout (fmtSprint ["x"])] :=
  c10_disabled_level_gate DisabledLogger InfoLevel ["x"] (by decide) (by decide)

end Golog
